import Mathlib

/-!
Verification development for the aniq quiz data layer.

The definitions in this file are a shallow embedding of the TypeScript
source (the rate-limited AniList client and the question assembler).
Timestamps are modelled in whole seconds as integers (the source works
with `Math.floor(Date.now() / 1000)`).  Network calls are modelled as
oracle inputs: a call's response (or thrown error) is a parameter of the
embedded function, so every code path is a pure function of the state,
the current time, and the oracle values.  JavaScript `setTimeout`
callbacks are modelled as explicit state-transition functions plus the
scheduled fire times recorded in the state.
-/

/-! ## Rate limit configuration (source: rate limit configuration constants) -/

/-- ACTUAL_RATE_LIMIT_PER_MINUTE in the source. -/
def ACTUAL_RATE_LIMIT_PER_MINUTE : Int := 30

/-- RATE_LIMIT_MAX in the source (equal to the actual per-minute limit). -/
def RATE_LIMIT_MAX : Int := ACTUAL_RATE_LIMIT_PER_MINUTE

/-! ## Rate limit state

The module-level mutable variables of the source
(`remainingRequests`, `retryAfterTimestamp`,
`rateLimitWindowStartTimestamp`, `rateLimitResetTimer`) become one
record.  `resetTimerAt` is the absolute fire time (seconds) of the
pending 60-second fallback reset timer, `none` when no timer is pending
(the source stores a timer handle; we store the schedule it stands
for).  `pauseTimerAts` records the fire times of the callbacks
scheduled by `setRateLimitPause`; the source never cancels those
callbacks, so the list is append-only.  The 100 ms safety buffer the
source adds to a pause callback is below the one-second granularity of
this model. -/
structure RLState where
  remaining : Option Int
  retryAfterTimestamp : Option Int
  windowStart : Option Int
  resetTimerAt : Option Int
  pauseTimerAts : List Int
deriving DecidableEq

/-- Initial state: `remainingRequests = RATE_LIMIT_MAX`, everything else unset. -/
def initRLState : RLState :=
  { remaining := some RATE_LIMIT_MAX
    retryAfterTimestamp := none
    windowStart := none
    resetTimerAt := none
    pauseTimerAts := [] }

/-- Embedding of `setRateLimitPause(retryAfterSeconds)`: store
`now + retryAfterSeconds` in `retryAfterTimestamp` and schedule a
callback for that moment (the callback body is `pauseTimerFire`). -/
def setRateLimitPause (now n : Int) (s : RLState) : RLState :=
  { s with
    retryAfterTimestamp := some (now + n)
    pauseTimerAts := s.pauseTimerAts ++ [now + n] }

/-- Body of the callback scheduled by `setRateLimitPause`: clear the
pause and reset the count to the per-minute maximum. -/
def pauseTimerFire (s : RLState) : RLState :=
  { s with retryAfterTimestamp := none, remaining := some ACTUAL_RATE_LIMIT_PER_MINUTE }

/-- Embedding of `updateRateLimitState(headers)`.  `hdr` is the parsed
`x-ratelimit-remaining` header when present.  The source subtracts a
fixed 60 offset (header advertises 90/min, server enforces 30/min) and
clamps at 0, cancels any pending fallback reset timer, and re-arms a
60-second fallback reset timer when no explicit pause is active. -/
def updateRateLimitState (now : Int) (hdr : Option Int) (s : RLState) : RLState :=
  let s1 :=
    match hdr with
    | some h => { s with remaining := some (max 0 (h - 60)) }
    | none => s
  let s2 := { s1 with resetTimerAt := none }
  if s2.retryAfterTimestamp = none then { s2 with resetTimerAt := some (now + 60) } else s2

/-- Body of the fallback reset timer callback: reset the count to the
maximum and clear the timer handle.  Firing is only possible while the
timer is pending. -/
def resetTimerFire (s : RLState) : RLState :=
  if s.resetTimerAt.isSome then
    { s with remaining := some ACTUAL_RATE_LIMIT_PER_MINUTE, resetTimerAt := none }
  else s

/-- Post-call decrement on the success path: decrement `remaining` by 1
with floor 0, when it is known. -/
def decrementRemaining (s : RLState) : RLState :=
  match s.remaining with
  | some r => { s with remaining := some (max 0 (r - 1)) }
  | none => s

/-- Complete success-path update: header read, timer replacement, then
the optimistic decrement (in source order). -/
def successUpdate (now : Int) (hdr : Option Int) (s : RLState) : RLState :=
  decrementRemaining (updateRateLimitState now hdr s)

/-- Burst-window tracking at the start of every request: when the
remaining estimate sits at the maximum, record the window start. -/
def attemptStartUpdate (now : Int) (s : RLState) : RLState :=
  if s.remaining = some RATE_LIMIT_MAX then { s with windowStart := some now } else s

/-! ## Errors and network outcomes -/

/-- Shape of the `response` field carried by a thrown request error:
HTTP status plus the two rate-limit headers (parsed when present).
`headersPresent` models the truthiness check `response.headers`. -/
structure HttpResponse where
  status : Int
  headersPresent : Bool
  resetHeader : Option Int
  retryAfterHeader : Option Int
deriving DecidableEq

/-- A thrown JavaScript error as the client inspects it: an optional
`response` field, whether `error.message.includes(\x27NetworkError\x27)`
holds, and a tag giving the error an identity so that propagation
"unmodified" is expressible. -/
structure JsError where
  response : Option HttpResponse
  msgHasNetworkError : Bool
  tag : Nat
deriving DecidableEq

/-- Outcome of the underlying `baseClient.rawRequest` call: either a
response (with the parsed `x-ratelimit-remaining` header) or a thrown
error. -/
inductive NetOutcome (α : Type)
  | success (remainingHeader : Option Int) (data : α)
  | failure (err : JsError)
deriving DecidableEq

/-- Result of `rateLimitedClient.request`: the decoded data, a thrown
`RateLimitError` (with its `retryAfterSeconds` and `resetTimestamp`
fields), or the original error rethrown. -/
inductive ReqResult (α : Type)
  | ok (data : α)
  | rateLimitError (retryAfterSeconds resetTimestamp : Int)
  | propagated (err : JsError)
deriving DecidableEq

/-- Classification of a 429 response: prefer the `x-ratelimit-reset`
header (`retrySeconds = max(1, reset - now)`, reset timestamp taken
exactly); else the `retry-after` header (`retrySeconds` as given, reset
`now + retrySeconds`); else default to 60 seconds.  Returns
`(retrySeconds, resetTimestamp)`. -/
def classify429 (now : Int) (resetHeader retryAfterHeader : Option Int) : Int × Int :=
  match resetHeader with
  | some t => (max 1 (t - now), t)
  | none =>
    match retryAfterHeader with
    | some sec => (sec, now + sec)
    | none => (60, now + 60)

/-- Catch-time handling of an error that did not match the 429 branch or
the non-429 HTTP branch: the NetworkError heuristic.  The guard in the
source is `message.includes(\x27NetworkError\x27) && remainingRequests !== null
&& rateLimitWindowStartTimestamp !== null`; when it holds the
reachability probe result `online` decides between a synthesized
throttling signal anchored at `windowStart + 60` and a plain rethrow. -/
def transportBranch (α : Type) (s1 : RLState) (now : Int) (err : JsError) (online : Bool) :
    ReqResult α × RLState :=
  match s1.remaining, s1.windowStart with
  | some _, some w =>
    if err.msgHasNetworkError then
      if online then
        let resetTs := w + 60
        let retrySec := max 1 (resetTs - now)
        (ReqResult.rateLimitError retrySec resetTs, setRateLimitPause now retrySec s1)
      else (ReqResult.propagated err, s1)
    else (ReqResult.propagated err, s1)
  | _, _ => (ReqResult.propagated err, s1)

/-- Embedding of `rateLimitedClient.request`.  The request is always
attempted (no preemptive check of `retryAfterTimestamp`); `outcome` is
what the network did, `online` is what the reachability probe would
answer if consulted.  Returns the call result and the post-call
governor state. -/
def request {α : Type} (s : RLState) (now : Int) (outcome : NetOutcome α) (online : Bool) :
    ReqResult α × RLState :=
  let s1 := attemptStartUpdate now s
  match outcome with
  | NetOutcome.success hdr data => (ReqResult.ok data, successUpdate now hdr s1)
  | NetOutcome.failure err =>
    match err.response with
    | some resp =>
      if resp.status = 429 ∧ resp.headersPresent then
        let rt := classify429 now resp.resetHeader resp.retryAfterHeader
        (ReqResult.rateLimitError rt.1 rt.2, setRateLimitPause now rt.1 s1)
      else if 400 ≤ resp.status then (ReqResult.propagated err, s1)
      else transportBranch α s1 now err online
    | none => transportBranch α s1 now err online

/-! ## Governor event system (for state-invariant claims)

Every mutation of the rate-limit state performed anywhere in the source
is one of these events; `govStep` reuses the very definitions used by
`request`. -/

inductive GovEvent
  | attemptStart (now : Int)
  | success (now : Int) (hdr : Option Int)
  | throttled (now : Int) (n : Int)
  | resetFire
  | pauseFire
deriving DecidableEq

def govStep (s : RLState) : GovEvent → RLState
  | GovEvent.attemptStart now => attemptStartUpdate now s
  | GovEvent.success now hdr => successUpdate now hdr s
  | GovEvent.throttled now n => setRateLimitPause now n s
  | GovEvent.resetFire => resetTimerFire s
  | GovEvent.pauseFire => pauseTimerFire s

/-- Run a sequence of governor events from the initial state. -/
def runGov (evs : List GovEvent) : RLState := evs.foldl govStep initRLState

/-! ## JavaScript Map model

The source uses `Map` objects: some built once from an array of entries
(`new Map(list)`, where a later entry for the same key overwrites an
earlier one) and some mutated with `set`.  We model a map as an
association list read with first-match lookup; `jsMapOf` reverses a
construction array so that the last entry for a key wins, and
`jsMapSet` prepends so that the newest binding for a key wins. -/

def jsMapGet {α : Type} (m : List (Int × α)) (k : Int) : Option α := m.lookup k

def jsMapOf {α : Type} (entries : List (Int × α)) : List (Int × α) := entries.reverse

def jsMapSet {α : Type} (m : List (Int × α)) (k : Int) (v : α) : List (Int × α) := (k, v) :: m

/-! ## Data model of the assembler (interfaces in the source) -/

/-- AnimeTitle: romaji plus optional english title. -/
structure AnimeTitle where
  romaji : String
  english : Option String
deriving DecidableEq

/-- AnimeCharacterBase: id, full name, and image URL (empty string
models a missing or falsy `image.large`). -/
structure CharBase where
  id : Int
  nameFull : String
  imageLarge : String
deriving DecidableEq

/-- AnimeCharacter: a base character extended with the anime title
attached during assembly. -/
structure AnimeCharacter where
  base : CharBase
  animeTitle : Option AnimeTitle
deriving DecidableEq

/-- Value returned by a successful `getQuestionCharacters` call.  The
source returns `{characters, correctCharacterId, correctAnimeId}`; the
internal `originAnimeIds` list (the anime id each selected character
came from, in option order) is carried along here so that properties
about origins are expressible. -/
structure RoundResult where
  characters : List AnimeCharacter
  originAnimeIds : List Int
  correctCharacterId : Int
  correctAnimeId : Int
deriving DecidableEq

/-- Errors observable from one attempt of the assembler pipeline.
`rateLimit` stands for a thrown `RateLimitError` from the rate-limited
client; `apiError` for any other error thrown by a network call;
the remaining constructors are the `throw new Error(...)` sites of
`getQuestionCharacters` itself. -/
inductive QErr
  | rateLimit (retryAfterSeconds resetTimestamp : Int)
  | apiError (tag : Nat)
  | noAnimeFound
  | charBatchFailed
  | insufficientChars (got : Nat)
  | titleBatchFailed
  | buildFailed
  | loopExit
deriving DecidableEq

/-- Discriminates a `RateLimitError` (`error instanceof RateLimitError`
in the source). -/
def QErr.isRL : QErr → Bool
  | QErr.rateLimit _ _ => true
  | _ => false

/-- An attempt outcome that is a failure other than a `RateLimitError`. -/
def isNonRLError : Except QErr RoundResult → Bool
  | Except.error e => !e.isRL
  | Except.ok _ => false

/-! ## Question assembler -/

/-- Unique-selection loop of `getQuestionCharacters`: walk the sampled
anime ids in order; for each id look up its (image-filtered) character
list, keep the characters whose id is not yet used, pick one at the
random index, and record it with its origin anime id; after every
iteration stop as soon as 4 are chosen.  `rand` is the stream of
`Math.random` draws (the k-th pick uses `rand k` reduced modulo the
number of candidates), `used` the set of already used character ids,
`accC`/`accA` the selected characters and their origin anime ids. -/
def selectLoop (mediaMap : List (Int × List CharBase)) (rand : Nat → Nat) :
    List Int → Nat → List Int → List CharBase → List Int → List CharBase × List Int
  | [], _, _, accC, accA => (accC, accA)
  | animeId :: rest, cnt, used, accC, accA =>
    match jsMapGet mediaMap animeId with
    | some chars =>
      if chars.length > 0 then
        let potential := chars.filter (fun c => decide (c.id ∉ used))
        if hp : potential.length > 0 then
          let c := potential.get ⟨rand cnt % potential.length, Nat.mod_lt _ hp⟩
          let accC2 := accC ++ [c]
          let accA2 := accA ++ [animeId]
          if accC2.length = 4 then (accC2, accA2)
          else selectLoop mediaMap rand rest (cnt + 1) (c.id :: used) accC2 accA2
        else
          if accC.length = 4 then (accC, accA)
          else selectLoop mediaMap rand rest cnt used accC accA
      else
        if accC.length = 4 then (accC, accA)
        else selectLoop mediaMap rand rest cnt used accC accA
    | none =>
      if accC.length = 4 then (accC, accA)
      else selectLoop mediaMap rand rest cnt used accC accA

/-- Oracle for one attempt of the pipeline: the response of (or error
thrown by) each of the three network calls, the shuffle result, and the
random draws.  `poolResp` covers both the genre branch and the year
branch (both produce a list of media ids); `shuffled` is the output of
the random-comparator in-place sort of that pool; `charResp`/
`titleResp` are `none` inside `ok` when the response is missing its
`Page.media` field (the falsiness checks in the source). -/
structure AttemptOracle where
  poolResp : Except QErr (List Int)
  shuffled : List Int
  charResp : Except QErr (Option (List (Int × List CharBase)))
  rand : Nat → Nat
  titleResp : Except QErr (Option (List (Int × AnimeTitle)))
  randCorrect : Nat

/-- Default used to model the always-in-bounds JavaScript indexing
`charactersWithTitles[correctIndex]`; never reached for in-range
indices. -/
def dummyCharacter : AnimeCharacter := { base := { id := 0, nameFull := "", imageLarge := "" }, animeTitle := none }

/-- One attempt (the try-block body) of `getQuestionCharacters`:
pool fetch, empty check, shuffle-and-take-4 sampling, character batch
fetch with image filter, unique selection, title batch fetch, and final
assembly with a uniformly chosen correct option. -/
def questionAttempt (o : AttemptOracle) : Except QErr RoundResult :=
  match o.poolResp with
  | Except.error e => Except.error e
  | Except.ok animeIds =>
    if animeIds.length = 0 then Except.error QErr.noAnimeFound
    else
      let selectedAnimeIds := o.shuffled.take 4
      match o.charResp with
      | Except.error e => Except.error e
      | Except.ok none => Except.error QErr.charBatchFailed
      | Except.ok (some media) =>
        let mediaMap := jsMapOf (media.map (fun m => (m.1, m.2.filter (fun c => c.imageLarge != ""))))
        let sel := selectLoop mediaMap o.rand selectedAnimeIds 0 [] [] []
        if sel.1.length < 4 then Except.error (QErr.insufficientChars sel.1.length)
        else
          match o.titleResp with
          | Except.error e => Except.error e
          | Except.ok none => Except.error QErr.titleBatchFailed
          | Except.ok (some titles) =>
            let titleMap := jsMapOf titles
            let charactersWithTitles :=
              List.zipWith (fun c a => AnimeCharacter.mk c (jsMapGet titleMap a)) sel.1 sel.2
            let correctIndex := o.randCorrect % charactersWithTitles.length
            let correctCharacter := charactersWithTitles.getD correctIndex dummyCharacter
            Except.ok
              { characters := charactersWithTitles
                originAnimeIds := sel.2
                correctCharacterId := correctCharacter.base.id
                correctAnimeId := sel.2.getD correctIndex 0 }

/-- maxAttempts in the source. -/
def maxAttempts : Nat := 3

/-- Retry loop of `getQuestionCharacters`: run attempts while
`attempts < maxAttempts`; a `RateLimitError` is rethrown at once; any
other failure increments `attempts` and, once `maxAttempts` is reached,
becomes the terminal build error.  Also returns how many attempts were
invoked.  The fuel argument is `maxAttempts - attempts`; the fuel-0
result models the unreachable throw after the while loop. -/
def buildLoop (f : Nat → Except QErr RoundResult) :
    Nat → Nat → Except QErr RoundResult × Nat
  | attemptsDone, rem + 1 =>
    match f attemptsDone with
    | Except.ok r => (Except.ok r, attemptsDone + 1)
    | Except.error e =>
      if e.isRL then (Except.error e, attemptsDone + 1)
      else if attemptsDone + 1 = maxAttempts then (Except.error QErr.buildFailed, attemptsDone + 1)
      else buildLoop f (attemptsDone + 1) rem
  | attemptsDone, 0 => (Except.error QErr.loopExit, attemptsDone)

/-- Embedding of the whole of `getQuestionCharacters`: up to
`maxAttempts` attempts, each driven by that attempt's oracle (the query
parameters are identical across attempts; only the network responses
and random draws may differ, which is what the per-attempt oracle
captures). -/
def getQuestionCharacters (oracles : Nat → AttemptOracle) :
    Except QErr RoundResult × Nat :=
  buildLoop (fun k => questionAttempt (oracles k)) 0 maxAttempts

/-! ## Cached fetchers -/

/-- AnimeDetails as returned by the detail query. -/
structure AnimeDetails where
  title : AnimeTitle
  studios : List String
  staffRoles : List (String × String)
  startYear : Int
  genres : List String
deriving DecidableEq

/-- Result of a cached fetcher: success, a rethrown `RateLimitError`, a
rethrown other error, or the explicit failure thrown by
`fetchAnimeDetails` when the decoded response lacks `Media`. -/
inductive FetchOutcome (α : Type)
  | ok (a : α)
  | throttled (retryAfterSeconds resetTimestamp : Int)
  | err (e : JsError)
  | detailsMissing
deriving DecidableEq

/-- Embedding of `fetchTopAnimeIds(count)`: consult the cache keyed by
`count`; on a hit return the cached ids without touching the network or
the governor; on a miss run the request through the rate-limited client
and store the decoded id list under the same key.  The final boolean
reports whether the network was called. -/
def fetchTopAnimeIds (count : Int) (cache : List (Int × List Int)) (s : RLState)
    (now : Int) (outcome : NetOutcome (List Int)) (online : Bool) :
    FetchOutcome (List Int) × List (Int × List Int) × RLState × Bool :=
  match jsMapGet cache count with
  | some ids => (FetchOutcome.ok ids, cache, s, false)
  | none =>
    match request s now outcome online with
    | (ReqResult.ok ids, s2) => (FetchOutcome.ok ids, jsMapSet cache count ids, s2, true)
    | (ReqResult.rateLimitError a b, s2) => (FetchOutcome.throttled a b, cache, s2, true)
    | (ReqResult.propagated e, s2) => (FetchOutcome.err e, cache, s2, true)

/-- Embedding of `fetchAnimeDetails(animeId)`: like `fetchTopAnimeIds`
but keyed by the anime id, and with the check that the decoded response
carries a `Media` object (`none` models a missing or falsy one, which
is thrown as an error and not cached). -/
def fetchAnimeDetails (animeId : Int) (cache : List (Int × AnimeDetails)) (s : RLState)
    (now : Int) (outcome : NetOutcome (Option AnimeDetails)) (online : Bool) :
    FetchOutcome AnimeDetails × List (Int × AnimeDetails) × RLState × Bool :=
  match jsMapGet cache animeId with
  | some d => (FetchOutcome.ok d, cache, s, false)
  | none =>
    match request s now outcome online with
    | (ReqResult.ok data, s2) =>
      match data with
      | some media => (FetchOutcome.ok media, jsMapSet cache animeId media, s2, true)
      | none => (FetchOutcome.detailsMissing, cache, s2, true)
    | (ReqResult.rateLimitError a b, s2) => (FetchOutcome.throttled a b, cache, s2, true)
    | (ReqResult.propagated e, s2) => (FetchOutcome.err e, cache, s2, true)

/-! ## Concrete instances used by witnesses and counterexamples -/

/-- Governor state with a pending fallback reset timer (scheduled to
fire at second 60) and no active pause. -/
def staleTimerState : RLState :=
  { remaining := some 5, retryAfterTimestamp := none, windowStart := some 0,
    resetTimerAt := some 60, pauseTimerAts := [] }

/-- Governor state mid-burst: count known and below the maximum, burst
window started at second 40. -/
def heuristicWitnessState : RLState :=
  { remaining := some 5, retryAfterTimestamp := none, windowStart := some 40,
    resetTimerAt := none, pauseTimerAts := [] }

/-- A transport error whose message contains NetworkError. -/
def heuristicWitnessErr : JsError :=
  { response := none, msgHasNetworkError := true, tag := 7 }

/-- An opaque error with no response and no NetworkError message. -/
def unknownErr : JsError :=
  { response := none, msgHasNetworkError := false, tag := 3 }

/-- Character batch response giving one imaged main character for each
of the four anime 1..4. -/
def wChars : List (Int × List CharBase) :=
  [(1, [{ id := 101, nameFull := "A", imageLarge := "u" }]),
   (2, [{ id := 102, nameFull := "B", imageLarge := "u" }]),
   (3, [{ id := 103, nameFull := "C", imageLarge := "u" }]),
   (4, [{ id := 104, nameFull := "D", imageLarge := "u" }])]

/-- Title batch response for anime 1..4. -/
def wTitles : List (Int × AnimeTitle) :=
  [(1, { romaji := "t1", english := none }),
   (2, { romaji := "t2", english := none }),
   (3, { romaji := "t3", english := none }),
   (4, { romaji := "t4", english := none })]

/-- An attempt oracle on which the whole pipeline succeeds first try. -/
def wOracle : AttemptOracle :=
  { poolResp := Except.ok [1, 2, 3, 4]
    shuffled := [1, 2, 3, 4]
    charResp := Except.ok (some wChars)
    rand := fun _ => 0
    titleResp := Except.ok (some wTitles)
    randCorrect := 0 }

/-- The round `wOracle` produces. -/
def wRound : RoundResult :=
  { characters :=
      [{ base := { id := 101, nameFull := "A", imageLarge := "u" },
         animeTitle := some { romaji := "t1", english := none } },
       { base := { id := 102, nameFull := "B", imageLarge := "u" },
         animeTitle := some { romaji := "t2", english := none } },
       { base := { id := 103, nameFull := "C", imageLarge := "u" },
         animeTitle := some { romaji := "t3", english := none } },
       { base := { id := 104, nameFull := "D", imageLarge := "u" },
         animeTitle := some { romaji := "t4", english := none } }]
    originAnimeIds := [1, 2, 3, 4]
    correctCharacterId := 101
    correctAnimeId := 1 }

/-- An attempt oracle whose pool fetch yields no candidates, making the
attempt fail with a non-throttling data error. -/
def failOracle : AttemptOracle :=
  { poolResp := Except.ok []
    shuffled := []
    charResp := Except.ok none
    rand := fun _ => 0
    titleResp := Except.ok none
    randCorrect := 0 }

/-- An attempt oracle whose pool fetch raises a `RateLimitError`. -/
def rlOracle : AttemptOracle :=
  { poolResp := Except.error (QErr.rateLimit 45 145)
    shuffled := []
    charResp := Except.ok none
    rand := fun _ => 0
    titleResp := Except.ok none
    randCorrect := 0 }

/-- Oracles: a data failure on attempt 0, then throttling on attempt 1. -/
def mixedOracles : Nat → AttemptOracle := fun k => if k = 0 then failOracle else rlOracle

/-- Top-anime-ids cache holding an entry for count 50. -/
def wCacheT : List (Int × List Int) := [(50, [1, 2, 3])]

/-- Empty anime-details cache. -/
def wCacheD : List (Int × AnimeDetails) := []

/-- A details record. -/
def wDetails : AnimeDetails :=
  { title := { romaji := "t", english := none }, studios := [], staffRoles := [],
    startYear := 2000, genres := [] }

/-! ## Helper lemmas -/

/-- Remaining-count nonnegativity predicate: whenever the count is
known, it is not negative. -/
def remainingNonneg (s : RLState) : Prop := ∀ r : Int, s.remaining = some r → 0 ≤ r

theorem decrementRemaining_nonneg (s : RLState) : remainingNonneg (decrementRemaining s) := by
  intro r hr
  unfold decrementRemaining at hr
  split at hr
  · simp only [RLState.remaining] at hr
    cases hr
    exact le_max_left 0 _
  · next heq => rw [heq] at hr; cases hr

theorem attemptStartUpdate_remaining (now : Int) (s : RLState) :
    (attemptStartUpdate now s).remaining = s.remaining := by
  unfold attemptStartUpdate
  split <;> rfl

theorem setRateLimitPause_remaining (now n : Int) (s : RLState) :
    (setRateLimitPause now n s).remaining = s.remaining := rfl

theorem resetTimerFire_remaining (s : RLState) :
    (resetTimerFire s).remaining
      = if s.resetTimerAt.isSome then some ACTUAL_RATE_LIMIT_PER_MINUTE else s.remaining := by
  unfold resetTimerFire
  split <;> simp_all

theorem pauseTimerFire_remaining (s : RLState) :
    (pauseTimerFire s).remaining = some ACTUAL_RATE_LIMIT_PER_MINUTE := rfl

theorem govStep_nonneg (s : RLState) (e : GovEvent) (h : remainingNonneg s) :
    remainingNonneg (govStep s e) := by
  cases e with
  | attemptStart now =>
    intro r hr
    rw [show govStep s (GovEvent.attemptStart now) = attemptStartUpdate now s from rfl,
      attemptStartUpdate_remaining] at hr
    exact h r hr
  | success now hdr =>
    exact decrementRemaining_nonneg (updateRateLimitState now hdr s)
  | throttled now n =>
    intro r hr
    rw [show govStep s (GovEvent.throttled now n) = setRateLimitPause now n s from rfl,
      setRateLimitPause_remaining] at hr
    exact h r hr
  | resetFire =>
    intro r hr
    rw [show govStep s GovEvent.resetFire = resetTimerFire s from rfl,
      resetTimerFire_remaining] at hr
    split at hr
    · cases hr
      norm_num [ACTUAL_RATE_LIMIT_PER_MINUTE]
    · exact h r hr
  | pauseFire =>
    intro r hr
    rw [show govStep s GovEvent.pauseFire = pauseTimerFire s from rfl,
      pauseTimerFire_remaining] at hr
    cases hr
    norm_num [ACTUAL_RATE_LIMIT_PER_MINUTE]

theorem foldl_govStep_nonneg (evs : List GovEvent) :
    ∀ s : RLState, remainingNonneg s → remainingNonneg (evs.foldl govStep s) := by
  induction evs with
  | nil => intro s h; exact h
  | cons e rest ih =>
    intro s h
    exact ih (govStep s e) (govStep_nonneg s e h)

/-! ## Claim theorems for the rate governor -/

/-- C3: a 429 failure is classified by `classify429`: with an
`x-ratelimit-reset` header `T` the raised error carries
`retryAfterSeconds = max 1 (T - now)` and `resetTimestamp = T` exactly;
with only a `retry-after` header `S` it carries `S` and `now + S`; with
neither it carries `60` and `now + 60` — so a concrete reset timestamp
is always derived. -/
theorem claim_C3_throttle_classification :
    (∀ (s : RLState) (now : Int) (online : Bool) (resetH retryH : Option Int)
        (msgNe : Bool) (tag : Nat),
      (@request Unit s now
          (NetOutcome.failure
            { response := some { status := 429, headersPresent := true,
                                 resetHeader := resetH, retryAfterHeader := retryH },
              msgHasNetworkError := msgNe, tag := tag }) online).1
        = ReqResult.rateLimitError (classify429 now resetH retryH).1
            (classify429 now resetH retryH).2)
    ∧ (∀ (now t : Int) (retryH : Option Int),
        classify429 now (some t) retryH = (max 1 (t - now), t))
    ∧ (∀ now sec : Int, classify429 now none (some sec) = (sec, now + sec))
    ∧ (∀ now : Int, classify429 now none none = (60, now + 60)) := by
  refine ⟨?_, ?_, ?_, ?_⟩
  · intro s now online resetH retryH msgNe tag
    simp [request]
  · intro now t retryH; rfl
  · intro now sec; rfl
  · intro now; rfl

/-- C4: for every sequence of governor events (request starts, success
updates with header read and post-call decrement, throttling pause
installs, and both kinds of scheduled reset callbacks) applied to the
initial state, the remaining-requests counter is never negative
whenever it is known. -/
theorem claim_C4_remaining_nonneg (evs : List GovEvent) : remainingNonneg (runGov evs) := by
  apply foldl_govStep_nonneg
  intro r hr
  rw [initRLState] at hr
  simp only [RLState.remaining] at hr
  cases hr
  norm_num [RATE_LIMIT_MAX, ACTUAL_RATE_LIMIT_PER_MINUTE]

/-- Witness for C4 at a concrete event trace: after a throttle and a
success the counter is known and nonnegative. -/
theorem claim_C4_remaining_nonneg_witness :
    (0 : Int) ≤ 29 :=
  claim_C4_remaining_nonneg [GovEvent.throttled 0 45, GovEvent.success 1 none] 29 rfl

theorem attemptStartUpdate_retryAfterTimestamp (now : Int) (s : RLState) :
    (attemptStartUpdate now s).retryAfterTimestamp = s.retryAfterTimestamp := by
  unfold attemptStartUpdate
  split <;> rfl

theorem attemptStartUpdate_resetTimerAt (now : Int) (s : RLState) :
    (attemptStartUpdate now s).resetTimerAt = s.resetTimerAt := by
  unfold attemptStartUpdate
  split <;> rfl

theorem attemptStartUpdate_pauseTimerAts (now : Int) (s : RLState) :
    (attemptStartUpdate now s).pauseTimerAts = s.pauseTimerAts := by
  unfold attemptStartUpdate
  split <;> rfl

/-- On any failing network outcome, the client either raises a
`RateLimitError` and installs the corresponding pause (the 429 branch
and the reachable-network heuristic branch), or rethrows the original
error with the state left at its post-attempt-start value. -/
theorem request_failure_cases (α : Type) (s : RLState) (now : Int) (err : JsError)
    (online : Bool) :
    (∃ a b, @request α s now (NetOutcome.failure err) online
        = (ReqResult.rateLimitError a b, setRateLimitPause now a (attemptStartUpdate now s)))
    ∨ @request α s now (NetOutcome.failure err) online
        = (ReqResult.propagated err, attemptStartUpdate now s) := by
  unfold request
  dsimp only
  rcases herr : err.response with _ | resp
  · unfold transportBranch
    rcases h1 : (attemptStartUpdate now s).remaining with _ | r
    · right; rfl
    · rcases h2 : (attemptStartUpdate now s).windowStart with _ | w
      · right; rfl
      · dsimp only
        split_ifs
        · exact Or.inl ⟨_, _, rfl⟩
        · right; rfl
        · right; rfl
  · dsimp only
    split_ifs
    · exact Or.inl ⟨_, _, rfl⟩
    · right; rfl
    · unfold transportBranch
      rcases h1 : (attemptStartUpdate now s).remaining with _ | r
      · right; rfl
      · rcases h2 : (attemptStartUpdate now s).windowStart with _ | w
        · right; rfl
        · dsimp only
          split_ifs
          · exact Or.inl ⟨_, _, rfl⟩
          · right; rfl
          · right; rfl

/-- C5: the client never short-circuits on the local pause state: a
successful network outcome always yields the decoded data (so the
request was in fact attempted, whatever `retryAfterTimestamp` holds),
and the call result is entirely independent of the pause field. -/
theorem claim_C5_always_attempts :
    (∀ (α : Type) (s : RLState) (now : Int) (hdr : Option Int) (data : α) (online : Bool),
      (@request α s now (NetOutcome.success hdr data) online).1 = ReqResult.ok data)
    ∧ (∀ (α : Type) (s : RLState) (now : Int) (out : NetOutcome α) (online : Bool)
        (p1 p2 : Option Int),
      (@request α { s with retryAfterTimestamp := p1 } now out online).1
        = (@request α { s with retryAfterTimestamp := p2 } now out online).1) := by
  constructor
  · intro α s now hdr data online
    rfl
  · intro α s now out online p1 p2
    rcases s with ⟨rem, pause, ws, rt, pts⟩
    cases out with
    | success hdr data => rfl
    | failure err =>
      rcases err with ⟨resp, msg, tag⟩
      rcases resp with _ | ⟨st, hp, rh, ra⟩ <;>
        rcases rem with _ | r <;>
          rcases ws with _ | w <;>
            unfold request attemptStartUpdate transportBranch <;>
              dsimp only <;> (try split_ifs) <;> rfl

/-- C6 fails on the code: installing a throttling pause leaves a
previously armed fallback reset timer pending (`setRateLimitPause`
never touches `rateLimitResetTimer`), so from a state with a timer
scheduled at second 60, installing a pause at second 10 lasting until
second 130 keeps the stale timer, which can then fire during the pause
and reset the remaining count. -/
theorem claim_C6_counterexample :
    (setRateLimitPause 10 120 staleTimerState).resetTimerAt = some 60
    ∧ (setRateLimitPause 10 120 staleTimerState).retryAfterTimestamp = some 130
    ∧ (resetTimerFire (setRateLimitPause 10 120 staleTimerState)).remaining
        = some ACTUAL_RATE_LIMIT_PER_MINUTE
    ∧ (resetTimerFire (setRateLimitPause 10 120 staleTimerState)).retryAfterTimestamp = some 130
    ∧ ¬ (∀ (s : RLState) (now n : Int), (setRateLimitPause now n s).resetTimerAt = none) := by
  refine ⟨rfl, rfl, rfl, rfl, ?_⟩
  intro h
  have h2 := h staleTimerState 10 120
  simp [setRateLimitPause, staleTimerState] at h2

/-- C6 amended: installing a pause leaves the fallback reset timer
untouched; the timer is cancelled (and re-armed only when no pause is
active) by the success-path update instead; and when a pending
fallback timer fires it resets the remaining count to the maximum
without clearing the pause. -/
theorem claim_C6_amended :
    (∀ (s : RLState) (now n : Int), (setRateLimitPause now n s).resetTimerAt = s.resetTimerAt)
    ∧ (∀ (s : RLState) (now : Int) (hdr : Option Int),
        (updateRateLimitState now hdr s).resetTimerAt
          = if s.retryAfterTimestamp = none then some (now + 60) else none)
    ∧ (∀ s : RLState, (resetTimerFire s).retryAfterTimestamp = s.retryAfterTimestamp)
    ∧ (∀ s : RLState, (resetTimerFire s).remaining
        = if s.resetTimerAt.isSome then some ACTUAL_RATE_LIMIT_PER_MINUTE else s.remaining) := by
  refine ⟨?_, ?_, ?_, resetTimerFire_remaining⟩
  · intro s now n; rfl
  · intro s now hdr
    rcases s with ⟨rem, pause, ws, rt, pts⟩
    unfold updateRateLimitState
    cases hdr <;> dsimp only <;> split_ifs <;> rfl
  · intro s
    unfold resetTimerFire
    split <;> rfl

/-- C7 fails on the code: on a 429 whose retry seconds come from a
`retry-after` header with value 0, the stored pause timestamp equals
the current time instead of being strictly in the future. -/
theorem claim_C7_counterexample :
    ¬ (∀ (s : RLState) (now : Int) (resetH retryH : Option Int) (online msgNe : Bool)
         (tag : Nat) (t : Int),
        (@request Unit s now
            (NetOutcome.failure
              { response := some { status := 429, headersPresent := true,
                                   resetHeader := resetH, retryAfterHeader := retryH },
                msgHasNetworkError := msgNe, tag := tag }) online).2.retryAfterTimestamp
          = some t → now < t) := by
  intro h
  have h2 := h initRLState 100 none (some 0) true false 0 100 (by decide)
  exact (by decide : ¬ (100 : Int) < 100) h2

/-- C7 amended: the stored pause timestamp is `now + retrySeconds`,
strictly in the future whenever the computed retry seconds are
positive — which the `x-ratelimit-reset` path (clamped at 1) and the
no-header default (60) always guarantee, while the `retry-after` path
inherits the header value — with the reset callback scheduled for that
moment; when the callback fires, the governor resets the remaining
count to the budget maximum and clears the pause field. -/
theorem claim_C7_amended :
    (∀ (s : RLState) (now n : Int), 0 < n →
      (setRateLimitPause now n s).retryAfterTimestamp = some (now + n)
      ∧ now < now + n
      ∧ (setRateLimitPause now n s).pauseTimerAts = s.pauseTimerAts ++ [now + n])
    ∧ (∀ (now t : Int) (retryH : Option Int), 1 ≤ (classify429 now (some t) retryH).1)
    ∧ (∀ now : Int, (classify429 now none none).1 = 60)
    ∧ (∀ s : RLState,
        (pauseTimerFire s).retryAfterTimestamp = none
        ∧ (pauseTimerFire s).remaining = some ACTUAL_RATE_LIMIT_PER_MINUTE) := by
  refine ⟨?_, ?_, ?_, ?_⟩
  · intro s now n hn
    exact ⟨rfl, by omega, rfl⟩
  · intro now t retryH
    exact le_max_left 1 _
  · intro now; rfl
  · intro s; exact ⟨rfl, rfl⟩

/-- Witness for the amended C7 at a concrete pause install. -/
theorem claim_C7_amended_witness :
    (0 : Int) < 45
    ∧ ((setRateLimitPause 100 45 initRLState).retryAfterTimestamp = some (100 + 45)
       ∧ (100 : Int) < 100 + 45
       ∧ (setRateLimitPause 100 45 initRLState).pauseTimerAts
           = initRLState.pauseTimerAts ++ [100 + 45]) :=
  ⟨by norm_num, claim_C7_amended.1 initRLState 100 45 (by norm_num)⟩

/-- C8: a transport-level failure (no response, NetworkError message)
while a burst window is in progress and the remaining count is known is
resolved by the reachability probe: reachable yields a synthesized
`RateLimitError` with `resetTimestamp = windowStart + 60` and
`retryAfterSeconds = max 1 (resetTimestamp - now)` together with the
corresponding installed pause; unreachable propagates the original
error unmodified with no pause installed. -/
theorem claim_C8_heuristic_throttle (s : RLState) (now w r : Int) (err : JsError)
    (hresp : err.response = none) (hmsg : err.msgHasNetworkError = true)
    (hrem : (attemptStartUpdate now s).remaining = some r)
    (hws : (attemptStartUpdate now s).windowStart = some w) :
    @request Unit s now (NetOutcome.failure err) true
      = (ReqResult.rateLimitError (max 1 (w + 60 - now)) (w + 60),
         setRateLimitPause now (max 1 (w + 60 - now)) (attemptStartUpdate now s))
    ∧ (setRateLimitPause now (max 1 (w + 60 - now)) (attemptStartUpdate now s)).retryAfterTimestamp
        = some (now + max 1 (w + 60 - now))
    ∧ @request Unit s now (NetOutcome.failure err) false
        = (ReqResult.propagated err, attemptStartUpdate now s)
    ∧ (attemptStartUpdate now s).retryAfterTimestamp = s.retryAfterTimestamp := by
  have key : ∀ online : Bool, @request Unit s now (NetOutcome.failure err) online
      = transportBranch Unit (attemptStartUpdate now s) now err online := by
    intro online
    unfold request
    dsimp only
    rw [hresp]
  have tb : ∀ online : Bool, transportBranch Unit (attemptStartUpdate now s) now err online
      = if online then
          (ReqResult.rateLimitError (max 1 (w + 60 - now)) (w + 60),
           setRateLimitPause now (max 1 (w + 60 - now)) (attemptStartUpdate now s))
        else (ReqResult.propagated err, attemptStartUpdate now s) := by
    intro online
    unfold transportBranch
    rw [hrem, hws]
    dsimp only
    rw [hmsg]
    cases online <;> rfl
  refine ⟨?_, rfl, ?_, attemptStartUpdate_retryAfterTimestamp now s⟩
  · rw [key, tb]; rfl
  · rw [key, tb]; rfl

/-- Witness for C8 at a concrete mid-burst state and transport error. -/
theorem claim_C8_heuristic_throttle_witness :
    @request Unit heuristicWitnessState 50 (NetOutcome.failure heuristicWitnessErr) true
      = (ReqResult.rateLimitError (max 1 (40 + 60 - 50)) (40 + 60),
         setRateLimitPause 50 (max 1 (40 + 60 - 50)) (attemptStartUpdate 50 heuristicWitnessState))
    ∧ (setRateLimitPause 50 (max 1 (40 + 60 - 50))
          (attemptStartUpdate 50 heuristicWitnessState)).retryAfterTimestamp
        = some (50 + max 1 (40 + 60 - 50))
    ∧ @request Unit heuristicWitnessState 50 (NetOutcome.failure heuristicWitnessErr) false
        = (ReqResult.propagated heuristicWitnessErr, attemptStartUpdate 50 heuristicWitnessState)
    ∧ (attemptStartUpdate 50 heuristicWitnessState).retryAfterTimestamp
        = heuristicWitnessState.retryAfterTimestamp :=
  claim_C8_heuristic_throttle heuristicWitnessState 50 40 5 heuristicWitnessErr
    rfl rfl (by decide) (by decide)

/-- C10 fails on the code as stated: besides the pause and the timers,
the burst-window start timestamp can also change during an invocation
that ends in an error (it is recorded at attempt start whenever the
remaining estimate sits at the maximum), as at the initial state. -/
theorem claim_C10_counterexample :
    ¬ (∀ (s : RLState) (now : Int) (err : JsError) (online : Bool),
        (@request Unit s now (NetOutcome.failure err) online).2.windowStart = s.windowStart) := by
  intro h
  have h2 := h initRLState 5 unknownErr true
  exact absurd h2 (by decide)

/-- C10 amended: an invocation that ends in an error never changes the
remaining-requests counter (the decrement happens only after a
successful response) and never touches the fallback reset timer; the
burst-window start may be recorded at attempt start; and whenever the
original error is propagated (every non-throttling error path) the
pause timestamp and the scheduled pause callbacks are unchanged as
well. -/
theorem claim_C10_amended (α : Type) (s : RLState) (now : Int) (err : JsError) (online : Bool) :
    (@request α s now (NetOutcome.failure err) online).2.remaining = s.remaining
    ∧ (@request α s now (NetOutcome.failure err) online).2.resetTimerAt = s.resetTimerAt
    ∧ (@request α s now (NetOutcome.failure err) online).2.windowStart
        = (attemptStartUpdate now s).windowStart
    ∧ (∀ e : JsError,
        (@request α s now (NetOutcome.failure err) online).1 = ReqResult.propagated e →
        (@request α s now (NetOutcome.failure err) online).2.retryAfterTimestamp
            = s.retryAfterTimestamp
        ∧ (@request α s now (NetOutcome.failure err) online).2.pauseTimerAts
            = s.pauseTimerAts) := by
  rcases request_failure_cases α s now err online with ⟨a, b, heq⟩ | heq <;> rw [heq]
  · refine ⟨?_, ?_, rfl, ?_⟩
    · rw [show (setRateLimitPause now a (attemptStartUpdate now s)).remaining
          = (attemptStartUpdate now s).remaining from rfl, attemptStartUpdate_remaining]
    · rw [show (setRateLimitPause now a (attemptStartUpdate now s)).resetTimerAt
          = (attemptStartUpdate now s).resetTimerAt from rfl, attemptStartUpdate_resetTimerAt]
    · intro e he
      cases he
  · exact ⟨attemptStartUpdate_remaining now s, attemptStartUpdate_resetTimerAt now s, rfl,
      fun e _ => ⟨attemptStartUpdate_retryAfterTimestamp now s,
        attemptStartUpdate_pauseTimerAts now s⟩⟩

/-- A successful run of the retry loop comes from a successful attempt. -/
theorem buildLoop_ok (f : Nat → Except QErr RoundResult) :
    ∀ (rem a : Nat) (r : RoundResult) (n : Nat),
      buildLoop f a rem = (Except.ok r, n) → ∃ k, f k = Except.ok r := by
  intro rem
  induction rem with
  | zero =>
    intro a r n h
    unfold buildLoop at h
    simp at h
  | succ m ih =>
    intro a r n h
    unfold buildLoop at h
    cases hf : f a with
    | ok r0 =>
      rw [hf] at h
      simp at h
      exact ⟨a, by rw [hf, h.1]⟩
    | error e =>
      rw [hf] at h
      dsimp only at h
      by_cases hrl : e.isRL = true
      · rw [if_pos hrl] at h
        simp at h
      · rw [if_neg hrl] at h
        by_cases hmax : a + 1 = maxAttempts
        · rw [if_pos hmax] at h
          simp at h
        · rw [if_neg hmax] at h
          exact ih (a + 1) r n h

/-- Invariant of the unique-selection loop: starting from accumulators
with pairwise distinct character ids (all marked used), pairwise
distinct origin ids disjoint from the ids still to process, equal
lengths, and at most 3 entries, the loop returns lists with pairwise
distinct character ids, pairwise distinct origin ids, equal lengths,
and at most 4 entries. -/
theorem selectLoop_spec (mediaMap : List (Int × List CharBase)) (rand : Nat → Nat) :
    ∀ (ids : List Int) (cnt : Nat) (used : List Int) (accC : List CharBase) (accA : List Int),
      ids.Nodup → (∀ a ∈ ids, a ∉ accA) →
      (accC.map CharBase.id).Nodup → (∀ c ∈ accC, c.id ∈ used) →
      accA.Nodup → accC.length = accA.length → accC.length ≤ 3 →
      ((selectLoop mediaMap rand ids cnt used accC accA).1.map CharBase.id).Nodup
      ∧ (selectLoop mediaMap rand ids cnt used accC accA).2.Nodup
      ∧ (selectLoop mediaMap rand ids cnt used accC accA).1.length
          = (selectLoop mediaMap rand ids cnt used accC accA).2.length
      ∧ (selectLoop mediaMap rand ids cnt used accC accA).1.length ≤ 4 := by
  intro ids
  induction ids with
  | nil =>
    intro cnt used accC accA _ _ h1 h2 h3 h4 h5
    refine ⟨h1, h3, h4, ?_⟩
    have hred : (selectLoop mediaMap rand [] cnt used accC accA).1 = accC := rfl
    rw [hred]
    omega
  | cons animeId rest ih =>
    intro cnt used accC accA hnd hdisj h1 h2 h3 h4 h5
    have hrestnd : rest.Nodup := (List.nodup_cons.mp hnd).2
    have hhead : animeId ∉ rest := (List.nodup_cons.mp hnd).1
    have hAmem : animeId ∉ accA := hdisj animeId (List.mem_cons_self _ _)
    have hrestdisj : ∀ a ∈ rest, a ∉ accA := fun a ha =>
      hdisj a (List.mem_cons_of_mem _ ha)
    unfold selectLoop
    rcases hm : jsMapGet mediaMap animeId with _ | chars
    · dsimp only
      split_ifs with hbreak
      · exact ⟨h1, h3, h4, by omega⟩
      · exact ih cnt used accC accA hrestnd hrestdisj h1 h2 h3 h4 h5
    · dsimp only
      by_cases hcl : chars.length > 0
      · rw [if_pos hcl]
        by_cases hp : (chars.filter (fun c => decide (c.id ∉ used))).length > 0
        · rw [dif_pos hp]
          set potential := chars.filter (fun c => decide (c.id ∉ used)) with hpot
          set c := potential.get ⟨rand cnt % potential.length, Nat.mod_lt _ hp⟩ with hc
          have hcmem : c ∈ potential := List.get_mem _ _ _
          have hcnotused : c.id ∉ used := by
            have := (List.mem_filter.mp hcmem).2
            exact of_decide_eq_true this
          have hcnotacc : c.id ∉ accC.map CharBase.id := by
            intro hmem
            rcases List.mem_map.mp hmem with ⟨c0, hc0, hc0id⟩
            exact hcnotused (hc0id ▸ h2 c0 hc0)
          have h1n : ((accC ++ [c]).map CharBase.id).Nodup := by
            rw [List.map_append]
            rw [List.nodup_append]
            refine ⟨h1, List.nodup_singleton _, ?_⟩
            intro x hx hx2
            simp only [List.map_cons, List.map_nil, List.mem_singleton] at hx2
            exact hcnotacc (hx2 ▸ hx)
          have h2n : ∀ x ∈ accC ++ [c], x.id ∈ c.id :: used := by
            intro x hx
            rcases List.mem_append.mp hx with hx | hx
            · exact List.mem_cons_of_mem _ (h2 x hx)
            · rw [List.mem_singleton.mp hx]
              exact List.mem_cons_self _ _
          have h3n : (accA ++ [animeId]).Nodup := by
            rw [List.nodup_append]
            refine ⟨h3, List.nodup_singleton _, ?_⟩
            intro x hx hx2
            rw [List.mem_singleton.mp hx2] at hx
            exact hAmem hx
          have hrestdisj2 : ∀ a ∈ rest, a ∉ accA ++ [animeId] := by
            intro a ha hmem
            rcases List.mem_append.mp hmem with hx | hx
            · exact hrestdisj a ha hx
            · rw [List.mem_singleton.mp hx] at ha
              exact hhead ha
          have h4n : (accC ++ [c]).length = (accA ++ [animeId]).length := by
            simp [h4]
          split_ifs with hbreak
          · refine ⟨h1n, h3n, h4n, ?_⟩
            simp only [List.length_append, List.length_singleton]
            omega
          · have h5n : (accC ++ [c]).length ≤ 3 := by
              simp only [List.length_append, List.length_singleton] at hbreak ⊢
              omega
            exact ih (cnt + 1) (c.id :: used) (accC ++ [c]) (accA ++ [animeId])
              hrestnd hrestdisj2 h1n h2n h3n h4n h5n
        · rw [dif_neg hp]
          split_ifs with hbreak
          · exact ⟨h1, h3, h4, by omega⟩
          · exact ih cnt used accC accA hrestnd hrestdisj h1 h2 h3 h4 h5
      · rw [if_neg hcl]
        split_ifs with hbreak
        · exact ⟨h1, h3, h4, by omega⟩
        · exact ih cnt used accC accA hrestnd hrestdisj h1 h2 h3 h4 h5

/-- Mapping the base projection over the assembled option list recovers
the selected characters. -/
theorem zipWith_mk_map_base (g : Int → Option AnimeTitle) :
    ∀ (l1 : List CharBase) (l2 : List Int), l1.length = l2.length →
      (List.zipWith (fun c a => AnimeCharacter.mk c (g a)) l1 l2).map
          (fun x => x.base) = l1 := by
  intro l1
  induction l1 with
  | nil => intro l2 _; rfl
  | cons c cs ih =>
    intro l2 hlen
    cases l2 with
    | nil => simp at hlen
    | cons a as =>
      simp only [List.zipWith_cons_cons, List.map_cons]
      rw [ih as (by simpa using hlen)]

/-- Indices into a list whose image under `f` has no duplicates are
determined by that image. -/
theorem nodup_map_getD_inj {α β : Type} (f : α → β) (d : α) (l : List α)
    (h : (l.map f).Nodup) {i j : Nat} (hi : i < l.length) (hj : j < l.length)
    (hf : f (l.getD i d) = f (l.getD j d)) : i = j := by
  rw [List.getD_eq_getElem l d hi, List.getD_eq_getElem l d hj] at hf
  have hi2 : i < (l.map f).length := by simpa using hi
  have hj2 : j < (l.map f).length := by simpa using hj
  have : (l.map f).get ⟨i, hi2⟩ = (l.map f).get ⟨j, hj2⟩ := by
    rw [List.get_map, List.get_map]
    exact hf
  exact congrArg Fin.val (h.get_inj_iff.mp this)

theorem isNonRLError_spec (x : Except QErr RoundResult) (h : isNonRLError x = true) :
    ∃ e, x = Except.error e ∧ e.isRL = false := by
  cases x with
  | ok v => simp [isNonRLError] at h
  | error e =>
    refine ⟨e, rfl, ?_⟩
    simpa [isNonRLError] using h

theorem buildLoop_ok_step (f : Nat → Except QErr RoundResult) (a rem : Nat) (r : RoundResult)
    (hf : f a = Except.ok r) : buildLoop f a (rem + 1) = (Except.ok r, a + 1) := by
  unfold buildLoop
  rw [hf]

theorem buildLoop_rl_step (f : Nat → Except QErr RoundResult) (a rem : Nat) (e : QErr)
    (hf : f a = Except.error e) (hrl : e.isRL = true) :
    buildLoop f a (rem + 1) = (Except.error e, a + 1) := by
  unfold buildLoop
  rw [hf]
  dsimp only
  rw [if_pos hrl]

theorem buildLoop_last_step (f : Nat → Except QErr RoundResult) (a rem : Nat) (e : QErr)
    (hf : f a = Except.error e) (hrl : e.isRL = false) (hmax : a + 1 = maxAttempts) :
    buildLoop f a (rem + 1) = (Except.error QErr.buildFailed, a + 1) := by
  unfold buildLoop
  rw [hf]
  dsimp only
  rw [if_neg (by simp [hrl] : ¬ e.isRL = true), if_pos hmax]

theorem buildLoop_error_step (f : Nat → Except QErr RoundResult) (a rem : Nat) (e : QErr)
    (hf : f a = Except.error e) (hrl : e.isRL = false) (hmax : ¬ a + 1 = maxAttempts) :
    buildLoop f a (rem + 1) = buildLoop f (a + 1) rem := by
  conv_lhs => rw [buildLoop]
  rw [hf]
  dsimp only
  rw [if_neg (by simp [hrl] : ¬ e.isRL = true), if_neg hmax]

/-- Everything C1 asserts about a successful single attempt. -/
theorem questionAttempt_ok_spec (o : AttemptOracle) (r : RoundResult)
    (hok : questionAttempt o = Except.ok r)
    (hpool : ∀ pool, o.poolResp = Except.ok pool →
        o.shuffled.Perm pool ∧ pool.Nodup ∧ 4 ≤ pool.length) :
    r.characters.length = 4
    ∧ r.originAnimeIds.length = 4
    ∧ (r.characters.map (fun x => x.base.id)).Nodup
    ∧ r.originAnimeIds.Nodup
    ∧ ∃ i, i < r.characters.length
        ∧ (r.characters.getD i dummyCharacter).base.id = r.correctCharacterId
        ∧ r.originAnimeIds.getD i 0 = r.correctAnimeId
        ∧ ∀ j, j < r.characters.length →
            (r.characters.getD j dummyCharacter).base.id = r.correctCharacterId → j = i := by
  unfold questionAttempt at hok
  rcases hp : o.poolResp with e | pool
  · rw [hp] at hok; simp at hok
  rw [hp] at hok
  dsimp only at hok
  obtain ⟨hperm, hnodup, hge4⟩ := hpool pool hp
  by_cases h0 : pool.length = 0
  · rw [if_pos h0] at hok; simp at hok
  rw [if_neg h0] at hok
  rcases hc : o.charResp with e | mopt
  · rw [hc] at hok; simp at hok
  rcases mopt with _ | media
  · rw [hc] at hok; simp at hok
  rw [hc] at hok
  dsimp only at hok
  set MM := jsMapOf (media.map (fun m => (m.1, m.2.filter (fun c => c.imageLarge != ""))))
    with hMM
  set sel := selectLoop MM o.rand (o.shuffled.take 4) 0 [] [] [] with hsel
  have hsl := selectLoop_spec MM o.rand (o.shuffled.take 4) 0 [] [] []
    (List.Nodup.sublist (List.take_sublist 4 o.shuffled) (hperm.nodup_iff.mpr hnodup))
    (fun a _ => List.not_mem_nil a)
    List.nodup_nil (fun c hc2 => absurd hc2 (List.not_mem_nil c))
    List.nodup_nil rfl (Nat.zero_le 3)
  rw [← hsel] at hsl
  obtain ⟨ndC, ndA, lenEq, len4⟩ := hsl
  by_cases hlt : sel.1.length < 4
  · rw [if_pos hlt] at hok; simp at hok
  rw [if_neg hlt] at hok
  rcases ht : o.titleResp with e | topt
  · rw [ht] at hok; simp at hok
  rcases topt with _ | titles
  · rw [ht] at hok; simp at hok
  rw [ht] at hok
  dsimp only at hok
  have hlen1 : sel.1.length = 4 := by omega
  have hlen2 : sel.2.length = 4 := by omega
  set WT := List.zipWith (fun c a => AnimeCharacter.mk c (jsMapGet (jsMapOf titles) a))
    sel.1 sel.2 with hWT
  have hWTlen : WT.length = 4 := by
    rw [hWT, List.length_zipWith, hlen1, hlen2]
    exact min_self 4
  have hbase : WT.map (fun x => x.base) = sel.1 :=
    zipWith_mk_map_base (jsMapGet (jsMapOf titles)) sel.1 sel.2 (by omega)
  have hids : WT.map (fun x => x.base.id) = sel.1.map CharBase.id := by
    rw [← hbase, List.map_map]
    rfl
  have hnodupWT : (WT.map (fun x => x.base.id)).Nodup := by
    rw [hids]
    exact ndC
  injection hok with hok2
  subst hok2
  refine ⟨hWTlen, hlen2, ?_, ndA, ?_⟩
  · exact hnodupWT
  · refine ⟨o.randCorrect % WT.length, ?_, rfl, rfl, ?_⟩
    · exact Nat.mod_lt _ (by omega)
    · intro j hj hfj
      exact nodup_map_getD_inj (fun x => x.base.id) dummyCharacter WT hnodupWT hj
        (Nat.mod_lt _ (by omega)) hfj

/-- C1: every successful return of the question assembler, given that
each attempt's fetched candidate pool is a list of at least 4 pairwise
distinct candidate ids (and the shuffle permutes it), contains exactly
4 options with pairwise distinct character ids drawn from pairwise
distinct origin anime ids, and `correctCharacterId` is the id of
exactly one option while `correctAnimeId` is that same option's origin
anime id. -/
theorem claim_C1_round_invariants (oracles : Nat → AttemptOracle) (r : RoundResult) (n : Nat)
    (hok : getQuestionCharacters oracles = (Except.ok r, n))
    (hpool : ∀ k pool, (oracles k).poolResp = Except.ok pool →
        (oracles k).shuffled.Perm pool ∧ pool.Nodup ∧ 4 ≤ pool.length) :
    r.characters.length = 4
    ∧ r.originAnimeIds.length = 4
    ∧ (r.characters.map (fun x => x.base.id)).Nodup
    ∧ r.originAnimeIds.Nodup
    ∧ ∃ i, i < r.characters.length
        ∧ (r.characters.getD i dummyCharacter).base.id = r.correctCharacterId
        ∧ r.originAnimeIds.getD i 0 = r.correctAnimeId
        ∧ ∀ j, j < r.characters.length →
            (r.characters.getD j dummyCharacter).base.id = r.correctCharacterId → j = i := by
  obtain ⟨k, hk⟩ := buildLoop_ok (fun k => questionAttempt (oracles k)) maxAttempts 0 r n hok
  exact questionAttempt_ok_spec (oracles k) r hk (hpool k)

/-- Witness for C1: the pipeline succeeds on `wOracle` and the returned
round satisfies all the invariants. -/
theorem claim_C1_round_invariants_witness :
    wRound.characters.length = 4
    ∧ wRound.originAnimeIds.length = 4
    ∧ (wRound.characters.map (fun x => x.base.id)).Nodup
    ∧ wRound.originAnimeIds.Nodup
    ∧ ∃ i, i < wRound.characters.length
        ∧ (wRound.characters.getD i dummyCharacter).base.id = wRound.correctCharacterId
        ∧ wRound.originAnimeIds.getD i 0 = wRound.correctAnimeId
        ∧ ∀ j, j < wRound.characters.length →
            (wRound.characters.getD j dummyCharacter).base.id = wRound.correctCharacterId →
              j = i :=
  claim_C1_round_invariants (fun _ => wOracle) wRound 1 (by rfl)
    (fun k pool h => by
      have h3 : (Except.ok [1, 2, 3, 4] : Except QErr (List Int)) = Except.ok pool := h
      injection h3 with h4
      rw [← h4]
      refine ⟨?_, by decide, by decide⟩
      show wOracle.shuffled.Perm [1, 2, 3, 4]
      decide)

/-- C2: the retry policy of the assembler: attempts failing with
anything but a `RateLimitError` restart the pipeline with the same
parameters until 3 total attempts are exhausted, after which the
assembler fails with the terminal build error, which is not a
throttling error; a `RateLimitError` on any attempt is re-raised
immediately, without consuming a further attempt. -/
theorem claim_C2_retry_policy (oracles : Nat → AttemptOracle) :
    ((∀ k, k < maxAttempts → isNonRLError (questionAttempt (oracles k)) = true) →
      getQuestionCharacters oracles = (Except.error QErr.buildFailed, maxAttempts)
      ∧ QErr.buildFailed.isRL = false)
    ∧ (∀ (j : Nat) (e : QErr), j < maxAttempts →
        questionAttempt (oracles j) = Except.error e → e.isRL = true →
        (∀ k, k < j → isNonRLError (questionAttempt (oracles k)) = true) →
        getQuestionCharacters oracles = (Except.error e, j + 1)) := by
  constructor
  · intro h
    obtain ⟨e0, he0, hrl0⟩ := isNonRLError_spec _ (h 0 (by norm_num [maxAttempts]))
    obtain ⟨e1, he1, hrl1⟩ := isNonRLError_spec _ (h 1 (by norm_num [maxAttempts]))
    obtain ⟨e2, he2, hrl2⟩ := isNonRLError_spec _ (h 2 (by norm_num [maxAttempts]))
    refine ⟨?_, rfl⟩
    have s1 : buildLoop (fun k => questionAttempt (oracles k)) 0 3
        = buildLoop (fun k => questionAttempt (oracles k)) 1 2 :=
      buildLoop_error_step _ 0 2 e0 he0 hrl0 (by norm_num [maxAttempts])
    have s2 : buildLoop (fun k => questionAttempt (oracles k)) 1 2
        = buildLoop (fun k => questionAttempt (oracles k)) 2 1 :=
      buildLoop_error_step _ 1 1 e1 he1 hrl1 (by norm_num [maxAttempts])
    have s3 : buildLoop (fun k => questionAttempt (oracles k)) 2 1
        = (Except.error QErr.buildFailed, 3) :=
      buildLoop_last_step _ 2 0 e2 he2 hrl2 (by norm_num [maxAttempts])
    exact (s1.trans (s2.trans s3) : _)
  · intro j e hj hje hrl hprev
    have hj3 : j < 3 := hj
    interval_cases j
    · exact (buildLoop_rl_step (fun k => questionAttempt (oracles k)) 0 2 e hje hrl : _)
    · obtain ⟨e0, he0, hrl0⟩ := isNonRLError_spec _ (hprev 0 (by norm_num))
      have s1 : buildLoop (fun k => questionAttempt (oracles k)) 0 3
          = buildLoop (fun k => questionAttempt (oracles k)) 1 2 :=
        buildLoop_error_step _ 0 2 e0 he0 hrl0 (by norm_num [maxAttempts])
      have s2 : buildLoop (fun k => questionAttempt (oracles k)) 1 2
          = (Except.error e, 2) :=
        buildLoop_rl_step _ 1 1 e hje hrl
      exact (s1.trans s2 : _)
    · obtain ⟨e0, he0, hrl0⟩ := isNonRLError_spec _ (hprev 0 (by norm_num))
      obtain ⟨e1, he1, hrl1⟩ := isNonRLError_spec _ (hprev 1 (by norm_num))
      have s1 : buildLoop (fun k => questionAttempt (oracles k)) 0 3
          = buildLoop (fun k => questionAttempt (oracles k)) 1 2 :=
        buildLoop_error_step _ 0 2 e0 he0 hrl0 (by norm_num [maxAttempts])
      have s2 : buildLoop (fun k => questionAttempt (oracles k)) 1 2
          = buildLoop (fun k => questionAttempt (oracles k)) 2 1 :=
        buildLoop_error_step _ 1 1 e1 he1 hrl1 (by norm_num [maxAttempts])
      have s3 : buildLoop (fun k => questionAttempt (oracles k)) 2 1
          = (Except.error e, 3) :=
        buildLoop_rl_step _ 2 0 e hje hrl
      exact (s1.trans (s2.trans s3) : _)

/-- Witness for C2: three data failures exhaust the attempts and end in
the terminal build error; a throttling error on attempt 1 after a data
failure on attempt 0 is re-raised at once with no third attempt. -/
theorem claim_C2_retry_policy_witness :
    getQuestionCharacters (fun _ => failOracle)
      = (Except.error QErr.buildFailed, maxAttempts)
    ∧ getQuestionCharacters mixedOracles = (Except.error (QErr.rateLimit 45 145), 1 + 1) :=
  ⟨((claim_C2_retry_policy (fun _ => failOracle)).1 (fun k _ => by decide)).1,
   (claim_C2_retry_policy mixedOracles).2 1 (QErr.rateLimit 45 145)
     (by norm_num [maxAttempts]) (by rfl) rfl
     (fun k hk => by
       have hk0 : k = 0 := by omega
       subst hk0
       decide)⟩

/-- C9: each cached fetcher returns the cached value on a hit with no
network call and no change at all to the governor state, and on a miss
stores the decoded network result under the identical key before
returning it. -/
theorem claim_C9_cache_behavior (count animeId : Int) (cT : List (Int × List Int))
    (cD : List (Int × AnimeDetails)) (s : RLState) (now : Int) (online : Bool)
    (outT : NetOutcome (List Int)) (outD : NetOutcome (Option AnimeDetails)) :
    (∀ ids, jsMapGet cT count = some ids →
      fetchTopAnimeIds count cT s now outT online = (FetchOutcome.ok ids, cT, s, false))
    ∧ (∀ hdr ids, jsMapGet cT count = none →
        outT = NetOutcome.success hdr ids →
        fetchTopAnimeIds count cT s now outT online
          = (FetchOutcome.ok ids, jsMapSet cT count ids,
             successUpdate now hdr (attemptStartUpdate now s), true))
    ∧ (∀ d, jsMapGet cD animeId = some d →
      fetchAnimeDetails animeId cD s now outD online = (FetchOutcome.ok d, cD, s, false))
    ∧ (∀ hdr media, jsMapGet cD animeId = none →
        outD = NetOutcome.success hdr (some media) →
        fetchAnimeDetails animeId cD s now outD online
          = (FetchOutcome.ok media, jsMapSet cD animeId media,
             successUpdate now hdr (attemptStartUpdate now s), true)) := by
  refine ⟨?_, ?_, ?_, ?_⟩
  · intro ids h
    unfold fetchTopAnimeIds
    rw [h]
  · intro hdr ids h hout
    unfold fetchTopAnimeIds
    rw [h, hout]
    rfl
  · intro d h
    unfold fetchAnimeDetails
    rw [h]
  · intro hdr media h hout
    unfold fetchAnimeDetails
    rw [h, hout]
    rfl

/-- Witness for C9: a hit on the top-ids cache and a miss on the
details cache. -/
theorem claim_C9_cache_behavior_witness :
    fetchTopAnimeIds 50 wCacheT initRLState 0 (NetOutcome.success none [9]) true
      = (FetchOutcome.ok [1, 2, 3], wCacheT, initRLState, false)
    ∧ fetchAnimeDetails 7 wCacheD initRLState 0 (NetOutcome.success none (some wDetails)) true
      = (FetchOutcome.ok wDetails, jsMapSet wCacheD 7 wDetails,
         successUpdate 0 none (attemptStartUpdate 0 initRLState), true) :=
  ⟨(claim_C9_cache_behavior 50 7 wCacheT wCacheD initRLState 0 true
      (NetOutcome.success none [9]) (NetOutcome.success none (some wDetails))).1
      [1, 2, 3] (by decide),
   (claim_C9_cache_behavior 50 7 wCacheT wCacheD initRLState 0 true
      (NetOutcome.success none [9]) (NetOutcome.success none (some wDetails))).2.2.2
      none wDetails (by decide) rfl⟩

/-- Witness for the amended C10 on a concrete error invocation. -/
theorem claim_C10_amended_witness :
    (@request Unit initRLState 5 (NetOutcome.failure unknownErr) true).2.remaining
        = initRLState.remaining
    ∧ (@request Unit initRLState 5 (NetOutcome.failure unknownErr) true).2.resetTimerAt
        = initRLState.resetTimerAt
    ∧ (@request Unit initRLState 5 (NetOutcome.failure unknownErr) true).2.windowStart
        = (attemptStartUpdate 5 initRLState).windowStart
    ∧ (∀ e : JsError,
        (@request Unit initRLState 5 (NetOutcome.failure unknownErr) true).1
            = ReqResult.propagated e →
        (@request Unit initRLState 5 (NetOutcome.failure unknownErr) true).2.retryAfterTimestamp
            = initRLState.retryAfterTimestamp
        ∧ (@request Unit initRLState 5 (NetOutcome.failure unknownErr) true).2.pauseTimerAts
            = initRLState.pauseTimerAts) :=
  claim_C10_amended Unit initRLState 5 unknownErr true
